import Mathlib

/-!
Shallow embedding of the `restarter` controller core:
the layered pod health evaluator (`internal/health`), the pod filtering
predicate and the reconcile state machine (`internal/controller`).

External effects (Kubernetes API responses, HTTP responses, TCP connects,
exec streams) are passed in explicitly as oracle values, so every function
below is a pure, executable translation of the corresponding Go function.
-/

namespace Restarter

/-! ## Data model (corev1 snapshot fields actually read by the core) -/

/-- Pod phase enum (`corev1.PodPhase`). -/
inductive PodPhase
  | Pending
  | Running
  | Succeeded
  | Failed
  | Unknown
deriving DecidableEq

/-- Condition status (`corev1.ConditionStatus`). -/
inductive CondStatus
  | condTrue
  | condFalse
  | condUnknown
deriving DecidableEq

/-- Pod condition type; the code compares only against `PodReady` and
`PodScheduled`, every other type is collapsed into `other`. -/
inductive CondType
  | podReady
  | podScheduled
  | other
deriving DecidableEq

/-- One entry of `pod.Status.Conditions`. -/
structure PodCondition where
  type : CondType
  status : CondStatus
deriving DecidableEq

/-- One entry of `pod.Status.ContainerStatuses`: the `Ready` flag and
whether `State.Waiting` is non-nil. -/
structure ContainerStatus where
  ready : Bool
  waiting : Bool
deriving DecidableEq

/-- One entry of `pod.Spec.Containers` (only the name is read). -/
structure Container where
  name : String
deriving DecidableEq

/-- The pod snapshot fields read by the health checker and the controller. -/
structure Pod where
  name : String
  namespaceName : String
  labels : List (String × String)
  containers : List Container
  phase : PodPhase
  conditions : List PodCondition
  containerStatuses : List ContainerStatus
  podIP : String
deriving DecidableEq

/-- `health.HealthCheckOptions`. -/
structure HealthCheckOptions where
  httpCheckURL : String
  execCommand : String
  tcpPort : Int
  containerName : String
  expectedOutput : String
deriving DecidableEq

/-- `health.Checker`: whether the Kubernetes client and REST config used by
exec-based checks are set (`SetKubernetesClient`).  The HTTP client and the
timeout only bound network calls, whose outcomes are oracle inputs here. -/
structure Checker where
  k8sClientSet : Bool
  restConfigSet : Bool
deriving DecidableEq

/-! ## Oracles for the network-bound layers -/

/-- Outcome of building and issuing the HTTP request:
`requestError e` is `http.NewRequestWithContext` failing (reachable when
the configured path makes the URL fail to parse, e.g. a control
character), `noResponse` is `httpClient.Do` failing, and `response` is a
response with a status code. -/
inductive HTTPResult
  | requestError (e : String)
  | noResponse
  | response (statusCode : Int)
deriving DecidableEq

/-- Outcome of the exec channel: whether `NewSPDYExecutor` succeeds, and the
stream result (`none` = stream error or non-zero exit from
`StreamWithContext`; `some out` = success with captured stdout `out`). -/
structure ExecWorld where
  executorOk : Bool
  streamResult : Option String
deriving DecidableEq

/-- All external outcomes one `IsPodHealthy` call can observe. -/
structure World where
  httpResult : HTTPResult
  tcpConnectOk : Bool
  execWorld : ExecWorld
deriving DecidableEq

/-! ## Health checker (`internal/health/checker.go`) -/

/-- `checkHTTPHealth`, instrumented with the URL of the GET request it
issues (`none` when it aborts before issuing one): empty pod IP is an
error; a request-creation failure returns the wrapped error with no GET
issued; a `Do` failure is the unhealthy verdict; otherwise the status code
decides. -/
def checkHTTPHealthT (pod : Pod) (healthCheckURL : String) (hr : HTTPResult) :
    Except String Bool × Option String :=
  if pod.podIP = "" then
    (Except.error "pod IP is not available", none)
  else
    let url := "http://" ++ pod.podIP ++ ":8080" ++ healthCheckURL
    match hr with
    | HTTPResult.requestError e =>
        (Except.error ("failed to create request: " ++ e), none)
    | HTTPResult.noResponse => (Except.ok false, some url)
    | HTTPResult.response code =>
        (Except.ok (decide (200 ≤ code) && decide (code < 400)), some url)

/-- `checkHTTPHealth`: the `(bool, error)` result. -/
def checkHTTPHealth (pod : Pod) (healthCheckURL : String) (hr : HTTPResult) :
    Except String Bool :=
  (checkHTTPHealthT pod healthCheckURL hr).1

/-- `checkTCPPort`: empty pod IP is an error; otherwise the dial outcome is
the verdict. -/
def checkTCPPort (pod : Pod) (_port : Int) (connectOk : Bool) :
    Except String Bool :=
  if pod.podIP = "" then Except.error "pod IP is not available"
  else Except.ok connectOk

/-- The byte-sliding substring loop `contains(s, substr)` from the source,
over characters. -/
def contains (s substr : String) : Bool :=
  if substr.length > s.length then false
  else
    (List.range (s.length - substr.length + 1)).any fun i =>
      (s.toList.drop i).take substr.length == substr.toList

/-- The exec request the checker posts: pod identity, target container and
the wrapped shell command. -/
structure ExecRequest where
  podName : String
  podNamespace : String
  container : String
  command : List String
deriving DecidableEq

/-- `checkExecCommand`, instrumented with the exec request it builds
(`none` when it aborts before building it). -/
def checkExecCommandT (c : Checker) (pod : Pod)
    (command containerName expectedOutput : String) (w : ExecWorld) :
    Except String Bool × Option ExecRequest :=
  if !c.k8sClientSet || !c.restConfigSet then
    (Except.error "kubernetes client not configured for exec checks", none)
  else
    match pod.containers with
    | [] => (Except.error "pod has no containers", none)
    | c0 :: _ =>
      let container := if containerName = "" then c0.name else containerName
      let req : ExecRequest :=
        ⟨pod.name, pod.namespaceName, container, ["sh", "-c", command]⟩
      if !w.executorOk then
        (Except.error "failed to create executor", some req)
      else
        match w.streamResult with
        | none => (Except.ok false, some req)
        | some output =>
          if expectedOutput ≠ "" then
            if output != expectedOutput && !(contains output expectedOutput) then
              (Except.ok false, some req)
            else (Except.ok true, some req)
          else (Except.ok true, some req)

/-- `checkExecCommand`: the `(bool, error)` result. -/
def checkExecCommand (c : Checker) (pod : Pod)
    (command containerName expectedOutput : String) (w : ExecWorld) :
    Except String Bool :=
  (checkExecCommandT c pod command containerName expectedOutput w).1

/-- The optional health check layers, in source order. -/
inductive Layer
  | http
  | tcp
  | exec
deriving DecidableEq

/-- The ready-condition loop of `IsPodHealthy` (layer 2): true iff some
condition of type `PodReady` has a status other than `ConditionTrue`. -/
def readyCondFail (pod : Pod) : Bool :=
  pod.conditions.any fun cond =>
    cond.type == CondType.podReady && !(cond.status == CondStatus.condTrue)

/-- Exec step of `IsPodHealthy` (layer 5), with the list of optional layers
it invokes. -/
def execStep (c : Checker) (pod : Pod) (opts : HealthCheckOptions) (w : World) :
    Except String Bool × List Layer :=
  if opts.execCommand ≠ "" then
    match checkExecCommand c pod opts.execCommand opts.containerName
        opts.expectedOutput w.execWorld with
    | Except.error e =>
        (Except.error ("exec command check failed: " ++ e), [Layer.exec])
    | Except.ok healthy => (Except.ok healthy, [Layer.exec])
  else (Except.ok true, [])

/-- TCP step of `IsPodHealthy` (layer 4), falling through to the exec step. -/
def tcpStep (c : Checker) (pod : Pod) (opts : HealthCheckOptions) (w : World) :
    Except String Bool × List Layer :=
  if opts.tcpPort > 0 then
    match checkTCPPort pod opts.tcpPort w.tcpConnectOk with
    | Except.error e =>
        (Except.error ("tcp port check failed: " ++ e), [Layer.tcp])
    | Except.ok false => (Except.ok false, [Layer.tcp])
    | Except.ok true =>
        let r := execStep c pod opts w
        (r.1, Layer.tcp :: r.2)
  else execStep c pod opts w

/-- HTTP step of `IsPodHealthy` (layer 3), falling through to the TCP step. -/
def httpStep (c : Checker) (pod : Pod) (opts : HealthCheckOptions) (w : World) :
    Except String Bool × List Layer :=
  if opts.httpCheckURL ≠ "" then
    match checkHTTPHealth pod opts.httpCheckURL w.httpResult with
    | Except.error e =>
        (Except.error ("http health check failed: " ++ e), [Layer.http])
    | Except.ok false => (Except.ok false, [Layer.http])
    | Except.ok true =>
        let r := tcpStep c pod opts w
        (r.1, Layer.http :: r.2)
  else tcpStep c pod opts w

/-- `IsPodHealthy`, instrumented with the list of optional layers invoked:
phase check, ready-condition loop, then HTTP → TCP → exec. -/
def IsPodHealthyT (c : Checker) (pod : Pod) (opts : HealthCheckOptions)
    (w : World) : Except String Bool × List Layer :=
  if pod.phase ≠ PodPhase.Running then (Except.ok false, [])
  else if readyCondFail pod then (Except.ok false, [])
  else httpStep c pod opts w

/-- `IsPodHealthy`: the `(bool, error)` result. -/
def IsPodHealthy (c : Checker) (pod : Pod) (opts : HealthCheckOptions)
    (w : World) : Except String Bool :=
  (IsPodHealthyT c pod opts w).1

/-- `CheckPodStatus`: ready/scheduled conditions plus per-container
ready/waiting flags. -/
def CheckPodStatus (pod : Pod) : Bool :=
  (pod.conditions.all fun cond =>
    !(cond.type == CondType.podReady && !(cond.status == CondStatus.condTrue)) &&
    !(cond.type == CondType.podScheduled && !(cond.status == CondStatus.condTrue))) &&
  (pod.containerStatuses.all fun cs => cs.ready && !cs.waiting)

/-! ## Controller (`internal/controller/pod_controller.go`) -/

/-- Split a character list on a separator character (used to model the
external `labels.Parse` on the comma-joined equality grammar the spec
describes for selector text). -/
def splitListOn (sep : Char) : List Char → List (List Char)
  | [] => [[]]
  | c :: rest =>
    let r := splitListOn sep rest
    if c = sep then [] :: r
    else
      match r with
      | [] => [[c]]
      | h :: t => (c :: h) :: t

/-- Parse one `key=value` equality term; anything else is a parse error. -/
def parseEqTerm (t : List Char) : Option (String × String) :=
  match splitListOn '=' t with
  | [k, v] => some (⟨k⟩, ⟨v⟩)
  | _ => none

/-- Model of the external `labels.Parse` restricted to the grammar the spec
gives for selector text: equality terms joined by commas.  `none` models a
parse error. -/
def parseSelector (s : String) : Option (List (String × String)) :=
  (splitListOn ',' s.toList).mapM parseEqTerm

/-- Model of `selector.Matches(labels.Set(...))` for a list of equality
requirements: every required key is present with the exact value. -/
def selectorMatches (terms lbls : List (String × String)) : Bool :=
  terms.all fun kv => decide (lbls.lookup kv.1 = some kv.2)

/-- Parse-then-match, as `matchesFilter` does for the pod label selector:
a selector that fails to parse matches nothing. -/
def labelSelectorMatches (sel : String) (lbls : List (String × String)) : Bool :=
  match parseSelector sel with
  | none => false
  | some terms => selectorMatches terms lbls

/-- The StatefulSet fields `belongsToStatefulSet` reads.  `selectorConv`
models `Spec.Selector` together with the outcome of the external
`metav1.LabelSelectorAsSelector` conversion: `none` is a nil selector,
`some (Except.error e)` a conversion failure, `some (Except.ok terms)`
the resulting equality requirements. -/
structure StatefulSetObj where
  selectorConv : Option (Except String (List (String × String)))

/-- `belongsToStatefulSet`: the `Get` outcome is the oracle argument
(`none` = the lookup returned an error, which is logged).  Every failure
path returns `false`. -/
def belongsToStatefulSet (getSTS : Option StatefulSetObj) (pod : Pod) : Bool :=
  match getSTS with
  | none => false
  | some sts =>
    match sts.selectorConv with
    | none => false
    | some (Except.error _) => false
    | some (Except.ok terms) => selectorMatches terms pod.labels

/-- `controller.PodReconciler` configuration fields. -/
structure PodReconciler where
  statefulSetName : String
  podLabelSelector : String
  namespaceName : String
  healthChecker : Checker
  healthCheckOptions : HealthCheckOptions
deriving DecidableEq

/-- `matchesFilter`: StatefulSet membership (when configured) AND label
selector (when configured); an unparseable selector is logged and fails
the match. -/
def matchesFilter (r : PodReconciler) (getSTS : Option StatefulSetObj)
    (pod : Pod) : Bool :=
  (if r.statefulSetName ≠ "" then belongsToStatefulSet getSTS pod else true) &&
  (if r.podLabelSelector ≠ "" then
     labelSelectorMatches r.podLabelSelector pod.labels
   else true)

/-- Outcome of `r.Get` on the pod named by the request. -/
inductive GetPodResult
  | found (pod : Pod)
  | notFound
  | otherError (e : String)
deriving DecidableEq

/-- Outcome of `r.Delete` on the pod. -/
inductive DeleteResult
  | ok
  | notFound
  | otherError (e : String)
deriving DecidableEq

/-- `ctrl.Result`: only `RequeueAfter` is ever set, recorded in seconds
(`0` = no requeue; the source writes `10 * time.Second`). -/
structure CtrlResult where
  requeueAfterSeconds : Nat
deriving DecidableEq

/-- `Reconcile`: fetch → filter → evaluate → act.  All external outcomes
(the fetch, the StatefulSet lookup, the health world, the delete) are oracle
arguments.  The `CheckPodStatus` call on the unhealthy path only logs and is
omitted: it does not affect the returned value. -/
def Reconcile (r : PodReconciler) (get : GetPodResult)
    (getSTS : Option StatefulSetObj) (w : World) (del : DeleteResult) :
    CtrlResult × Option String :=
  match get with
  | GetPodResult.notFound => (⟨0⟩, none)
  | GetPodResult.otherError e => (⟨0⟩, some ("failed to get pod: " ++ e))
  | GetPodResult.found pod =>
    if !matchesFilter r getSTS pod then (⟨0⟩, none)
    else
      match IsPodHealthy r.healthChecker pod r.healthCheckOptions w with
      | Except.error _ => (⟨10⟩, none)
      | Except.ok true => (⟨0⟩, none)
      | Except.ok false =>
        match del with
        | DeleteResult.notFound => (⟨0⟩, none)
        | DeleteResult.otherError _ => (⟨10⟩, none)
        | DeleteResult.ok => (⟨0⟩, none)

/-! ## Scheduling model (`SetupWithManager`) -/

/-- The worker bound passed to the controller builder:
`controller.Options{MaxConcurrentReconciles: 1}`. -/
def maxConcurrentReconciles : Nat := 1

/-- Work-queue state: notifications pending and reconciles in flight. -/
structure SchedState where
  pending : Nat
  inFlight : Nat
deriving DecidableEq

/-- Modelled from the spec: the external controller-runtime work queue and
worker pool (not part of this repository's sources).  A change notification
enqueues; a worker may start a pending reconcile only while fewer than
`maxConcurrentReconciles` are in flight; a running reconcile may finish. -/
inductive SchedStep : SchedState → SchedState → Prop
  | notify (p f : Nat) : SchedStep ⟨p, f⟩ ⟨p + 1, f⟩
  | start (p f : Nat) (h : f < maxConcurrentReconciles) :
      SchedStep ⟨p + 1, f⟩ ⟨p, f + 1⟩
  | finish (p f : Nat) : SchedStep ⟨p, f + 1⟩ ⟨p, f⟩

/-- States reachable from the idle initial state. -/
def SchedReachable (s : SchedState) : Prop :=
  Relation.ReflTransGen SchedStep ⟨0, 0⟩ s

/-! ## Concrete fixtures used by witnesses and counterexamples -/

/-- No optional layer configured. -/
def noChecks : HealthCheckOptions := ⟨"", "", 0, "", ""⟩

/-- Only the HTTP layer configured. -/
def httpOnlyOpts : HealthCheckOptions := ⟨"/status/health", "", 0, "", ""⟩

/-- Only the exec layer configured. -/
def execOnlyOpts : HealthCheckOptions := ⟨"", "ps aux", 0, "", "java"⟩

/-- All three optional layers configured. -/
def allOpts : HealthCheckOptions := ⟨"/health", "ps aux", 8080, "", ""⟩

/-- Checker without an exec channel (`SetKubernetesClient` never called). -/
def checkerOff : Checker := ⟨false, false⟩

/-- Checker with the exec channel configured. -/
def checkerOn : Checker := ⟨true, true⟩

/-- A world where every network-bound check fails to connect. -/
def quietWorld : World := ⟨HTTPResult.noResponse, false, ⟨true, none⟩⟩

/-- A world whose HTTP endpoint answers 500. -/
def httpFailWorld : World := ⟨HTTPResult.response 500, true, ⟨true, some "java"⟩⟩

/-- A configured health check path with a control character: on such a
path Go's request creation fails instead of issuing the GET. -/
def badPathURL : String := "/health\n"

/-- A running, ready pod with one declared container. -/
def healthyPod : Pod :=
  { name := "pod-0", namespaceName := "druid",
    labels := [("app", "router")],
    containers := [⟨"main"⟩],
    phase := PodPhase.Running,
    conditions := [⟨CondType.podReady, CondStatus.condTrue⟩],
    containerStatuses := [⟨true, false⟩],
    podIP := "10.0.0.1" }

/-- Running and ready at the pod level, but its container reports
`Ready=false`. -/
def notReadyContainerPod : Pod :=
  { healthyPod with containerStatuses := [⟨false, false⟩] }

/-- A pod still in phase `Pending`. -/
def pendingPod : Pod := { healthyPod with phase := PodPhase.Pending }

/-- A running, ready pod with no assigned IP. -/
def noIPPod : Pod := { healthyPod with podIP := "" }

/-- A running pod whose conditions list has no `PodReady` entry at all. -/
def noReadyCondPod : Pod :=
  { healthyPod with conditions := [⟨CondType.podScheduled, CondStatus.condTrue⟩] }

/-- Reconciler filtering by label selector only, HTTP layer configured. -/
def selectorReconciler : PodReconciler :=
  ⟨"", "app=router", "druid", checkerOff, httpOnlyOpts⟩

/-- Reconciler filtering by label selector only, no optional layers. -/
def delReconciler : PodReconciler :=
  ⟨"", "app=router", "druid", checkerOff, noChecks⟩

/-- Reconciler filtering by StatefulSet name only. -/
def stsReconciler : PodReconciler :=
  ⟨"druid-router", "", "druid", checkerOff, noChecks⟩

/-! ## Helper lemmas on the layer traces -/

theorem execStep_trace_sublist (c : Checker) (pod : Pod)
    (opts : HealthCheckOptions) (w : World) :
    (execStep c pod opts w).2.Sublist [Layer.exec] := by
  unfold execStep
  split
  · split
    · exact List.Sublist.refl _
    · exact List.Sublist.refl _
  · exact List.nil_sublist _

theorem tcpStep_trace_sublist (c : Checker) (pod : Pod)
    (opts : HealthCheckOptions) (w : World) :
    (tcpStep c pod opts w).2.Sublist [Layer.tcp, Layer.exec] := by
  unfold tcpStep
  split
  · split
    · exact (List.nil_sublist _).cons₂ _
    · exact (List.nil_sublist _).cons₂ _
    · exact (execStep_trace_sublist c pod opts w).cons₂ _
  · exact (execStep_trace_sublist c pod opts w).cons _

theorem httpStep_trace_sublist (c : Checker) (pod : Pod)
    (opts : HealthCheckOptions) (w : World) :
    (httpStep c pod opts w).2.Sublist [Layer.http, Layer.tcp, Layer.exec] := by
  unfold httpStep
  split
  · split
    · exact (List.nil_sublist _).cons₂ _
    · exact (List.nil_sublist _).cons₂ _
    · exact (tcpStep_trace_sublist c pod opts w).cons₂ _
  · exact (tcpStep_trace_sublist c pod opts w).cons _

theorem httpStep_fail_trace (c : Checker) (pod : Pod)
    (opts : HealthCheckOptions) (w : World) (h1 : opts.httpCheckURL ≠ "")
    (h2 : checkHTTPHealth pod opts.httpCheckURL w.httpResult ≠ Except.ok true) :
    (httpStep c pod opts w).2 = [Layer.http] := by
  unfold httpStep
  rw [if_pos h1]
  split
  · rfl
  · rfl
  · rename_i heq
    exact absurd heq h2

theorem tcpStep_fail_trace (c : Checker) (pod : Pod)
    (opts : HealthCheckOptions) (w : World) (h1 : opts.tcpPort > 0)
    (h2 : checkTCPPort pod opts.tcpPort w.tcpConnectOk ≠ Except.ok true) :
    (tcpStep c pod opts w).2 = [Layer.tcp] := by
  unfold tcpStep
  rw [if_pos h1]
  split
  · rfl
  · rfl
  · rename_i heq
    exact absurd heq h2

theorem httpStep_no_exec_of_tcp_fail (c : Checker) (pod : Pod)
    (opts : HealthCheckOptions) (w : World) (h1 : opts.tcpPort > 0)
    (h2 : checkTCPPort pod opts.tcpPort w.tcpConnectOk ≠ Except.ok true) :
    Layer.exec ∉ (httpStep c pod opts w).2 := by
  have htcp := tcpStep_fail_trace c pod opts w h1 h2
  unfold httpStep
  split
  · split
    · simp
    · simp
    · simp [htcp]
  · simp [htcp]

/-! ## Claim theorems -/

/-- Claim C1, counterexample: a pod in phase Running with the ready
condition true but a declared container reporting `Ready=false` is judged
HEALTHY by `IsPodHealthy` (with no optional layer configured), refuting the
claim that the mandatory status layer of `Evaluate` returns unhealthy for a
container with ready=false; that check lives only in the separate
`CheckPodStatus` helper, which indeed returns false for this pod. -/
theorem C1_counterexample :
    notReadyContainerPod.containerStatuses.any (fun cs => !cs.ready) = true ∧
    IsPodHealthy checkerOff notReadyContainerPod noChecks quietWorld =
      Except.ok true ∧
    CheckPodStatus notReadyContainerPod = false :=
  ⟨rfl, rfl, rfl⟩

/-- Claim C1, amended: the mandatory status layer of `IsPodHealthy` returns
unhealthy with no error whenever the pod's phase is not Running or a ready
condition is present and not true, and then no optional layer is invoked;
container-level ready=false / waiting states are checked only by the
separate `CheckPodStatus` function (which returns false for them), not by
`IsPodHealthy`. -/
theorem C1_amended (c : Checker) (pod : Pod) (opts : HealthCheckOptions)
    (w : World)
    (h : pod.phase ≠ PodPhase.Running ∨ readyCondFail pod = true) :
    IsPodHealthyT c pod opts w = (Except.ok false, []) ∧
    (∀ cs ∈ pod.containerStatuses, (cs.ready = false ∨ cs.waiting = true) →
      CheckPodStatus pod = false) := by
  constructor
  · rcases h with h | h
    · simp [IsPodHealthyT, h]
    · simp [IsPodHealthyT, h]
  · intro cs hmem hcs
    have hall : pod.containerStatuses.all (fun cs => cs.ready && !cs.waiting)
        = false := by
      rw [List.all_eq_false]
      refine ⟨cs, hmem, ?_⟩
      rcases hcs with h1 | h1 <;> simp [h1]
    simp [CheckPodStatus, hall]

/-- Claim C1 witness: a Pending pod is judged unhealthy with no error and
with no optional layer invoked. -/
theorem C1_witness :
    IsPodHealthyT checkerOff pendingPod noChecks quietWorld =
      (Except.ok false, []) :=
  (C1_amended checkerOff pendingPod noChecks quietWorld (Or.inl (by decide))).1

/-- Claim C3: the optional layers are invoked in the order
HTTP → TCP → exec (the invocation trace is an ordered sublist of
`[http, tcp, exec]`); a status-layer failure invokes no optional layer; an
HTTP layer that does not pass prevents TCP and exec from being invoked; a
TCP layer that does not pass prevents exec from being invoked. -/
theorem C3_layer_order (c : Checker) (pod : Pod) (opts : HealthCheckOptions)
    (w : World) :
    (IsPodHealthyT c pod opts w).2.Sublist [Layer.http, Layer.tcp, Layer.exec] ∧
    ((pod.phase ≠ PodPhase.Running ∨ readyCondFail pod = true) →
      (IsPodHealthyT c pod opts w).2 = []) ∧
    (opts.httpCheckURL ≠ "" →
      checkHTTPHealth pod opts.httpCheckURL w.httpResult ≠ Except.ok true →
      Layer.tcp ∉ (IsPodHealthyT c pod opts w).2 ∧
      Layer.exec ∉ (IsPodHealthyT c pod opts w).2) ∧
    (opts.tcpPort > 0 →
      checkTCPPort pod opts.tcpPort w.tcpConnectOk ≠ Except.ok true →
      Layer.exec ∉ (IsPodHealthyT c pod opts w).2) := by
  refine ⟨?_, ?_, ?_, ?_⟩
  · unfold IsPodHealthyT
    split
    · exact List.nil_sublist _
    · split
      · exact List.nil_sublist _
      · exact httpStep_trace_sublist c pod opts w
  · intro h
    rcases h with h | h
    · simp [IsPodHealthyT, h]
    · simp [IsPodHealthyT, h]
  · intro h1 h2
    unfold IsPodHealthyT
    split
    · simp
    · split
      · simp
      · rw [httpStep_fail_trace c pod opts w h1 h2]
        simp
  · intro h1 h2
    unfold IsPodHealthyT
    split
    · simp
    · split
      · simp
      · exact httpStep_no_exec_of_tcp_fail c pod opts w h1 h2

/-- Claim C3 witness: with all three optional layers configured and the
HTTP endpoint answering 500, neither the TCP nor the exec layer is
invoked. -/
theorem C3_witness :
    Layer.tcp ∉ (IsPodHealthyT checkerOn healthyPod allOpts httpFailWorld).2 ∧
    Layer.exec ∉ (IsPodHealthyT checkerOn healthyPod allOpts httpFailWorld).2 :=
  (C3_layer_order checkerOn healthyPod allOpts httpFailWorld).2.2.1
    (by decide)
    (by
      intro h
      rw [show checkHTTPHealth healthyPod allOpts.httpCheckURL
            httpFailWorld.httpResult = Except.ok false from rfl] at h
      simp at h)

/-- Claim C10: for a Running pod whose conditions list contains no
PodReady entry at all, the ready check passes — evaluation proceeds to the
optional layer pipeline, and returns healthy when no optional layer is
configured. -/
theorem C10_no_ready_condition (c : Checker) (pod : Pod)
    (opts : HealthCheckOptions) (w : World)
    (hphase : pod.phase = PodPhase.Running)
    (hnone : ∀ cond ∈ pod.conditions, cond.type ≠ CondType.podReady) :
    IsPodHealthyT c pod opts w = httpStep c pod opts w ∧
    IsPodHealthy c pod noChecks w = Except.ok true := by
  have hready : readyCondFail pod = false := by
    unfold readyCondFail
    rw [List.any_eq_false]
    intro cond hc
    simp [hnone cond hc]
  constructor
  · simp [IsPodHealthyT, hphase, hready]
  · simp [IsPodHealthy, IsPodHealthyT, hphase, hready, httpStep, tcpStep,
      execStep, noChecks]

/-- Claim C10 witness: a Running pod whose only condition is PodScheduled
is judged healthy with no optional layer configured. -/
theorem C10_witness :
    IsPodHealthy checkerOff noReadyCondPod noChecks quietWorld =
      Except.ok true :=
  (C10_no_ready_condition checkerOff noReadyCondPod noChecks quietWorld
    rfl (by decide)).2

/-- Claim C4: for the exec layer — an unconfigured exec channel yields an
infrastructure error (not an unhealthy verdict); with the channel and
executor available, a stream error or non-zero exit (`streamResult = none`)
yields unhealthy with no error; on success a configured expected output is
compared exactly or as a substring (no match → unhealthy, match or no
expectation → pass); the command is posted against the named container,
defaulting to the first declared container; and with only the exec layer
configured, `IsPodHealthy` aborts with the wrapped infrastructure error when
the channel is missing. -/
theorem C4_exec_layer (c : Checker) (pod : Pod) (opts : HealthCheckOptions)
    (w : World) :
    ((!c.k8sClientSet || !c.restConfigSet) = true →
      checkExecCommand c pod opts.execCommand opts.containerName
          opts.expectedOutput w.execWorld =
        Except.error "kubernetes client not configured for exec checks") ∧
    (c.k8sClientSet = true → c.restConfigSet = true →
      w.execWorld.executorOk = true →
      ∀ c0 cs, pod.containers = c0 :: cs →
        (w.execWorld.streamResult = none →
          checkExecCommand c pod opts.execCommand opts.containerName
            opts.expectedOutput w.execWorld = Except.ok false) ∧
        (∀ out, w.execWorld.streamResult = some out →
          opts.expectedOutput ≠ "" →
          checkExecCommand c pod opts.execCommand opts.containerName
              opts.expectedOutput w.execWorld =
            Except.ok (out == opts.expectedOutput ||
              contains out opts.expectedOutput)) ∧
        (∀ out, w.execWorld.streamResult = some out →
          opts.expectedOutput = "" →
          checkExecCommand c pod opts.execCommand opts.containerName
            opts.expectedOutput w.execWorld = Except.ok true) ∧
        (checkExecCommandT c pod opts.execCommand opts.containerName
            opts.expectedOutput w.execWorld).2 =
          some ⟨pod.name, pod.namespaceName,
            (if opts.containerName = "" then c0.name else opts.containerName),
            ["sh", "-c", opts.execCommand]⟩) ∧
    (pod.phase = PodPhase.Running → readyCondFail pod = false →
      opts.httpCheckURL = "" → ¬ opts.tcpPort > 0 → opts.execCommand ≠ "" →
      (!c.k8sClientSet || !c.restConfigSet) = true →
      IsPodHealthy c pod opts w =
        Except.error
          "exec command check failed: kubernetes client not configured for exec checks") := by
  refine ⟨?_, ?_, ?_⟩
  · intro h
    simp [checkExecCommand, checkExecCommandT, h]
  · intro h1 h2 hex c0 cs hcont
    have hcl : (!c.k8sClientSet || !c.restConfigSet) = false := by
      simp [h1, h2]
    refine ⟨?_, ?_, ?_, ?_⟩
    · intro hs
      simp [checkExecCommand, checkExecCommandT, hcl, hcont, hex, hs]
    · intro out hs hexp
      cases hb : out == opts.expectedOutput
      · cases hc : contains out opts.expectedOutput
        · simp [checkExecCommand, checkExecCommandT, hcl, hcont, hex, hs,
            hexp, bne, hb, hc]
        · simp [checkExecCommand, checkExecCommandT, hcl, hcont, hex, hs,
            hexp, bne, hb, hc]
      · simp [checkExecCommand, checkExecCommandT, hcl, hcont, hex, hs,
          hexp, bne, hb]
    · intro out hs hexp
      simp [checkExecCommand, checkExecCommandT, hcl, hcont, hex, hs, hexp]
    · cases ws : w.execWorld.streamResult with
      | none => simp [checkExecCommandT, hcl, hcont, hex, ws]
      | some out =>
        simp [checkExecCommandT, hcl, hcont, hex, ws]
        split
        · rfl
        · split <;> rfl
  · intro hphase hready hurl htcp hcmd hcl
    have hchk : checkExecCommand c pod opts.execCommand opts.containerName
        opts.expectedOutput w.execWorld =
        Except.error "kubernetes client not configured for exec checks" := by
      simp [checkExecCommand, checkExecCommandT, hcl]
    simp [IsPodHealthy, IsPodHealthyT, hphase, hready, httpStep, hurl,
      tcpStep, htcp, execStep, hcmd, hchk]

/-- Claim C4 witness: with the exec channel configured, exit 0 and stdout
"python" against expected "java" yields unhealthy with no error. -/
theorem C4_witness :
    checkExecCommand checkerOn healthyPod execOnlyOpts.execCommand
        execOnlyOpts.containerName execOnlyOpts.expectedOutput
        ⟨true, some "python"⟩ =
      Except.ok false :=
  by
    have h :=
      ((C4_exec_layer checkerOn healthyPod execOnlyOpts
          ⟨HTTPResult.noResponse, false, ⟨true, some "python"⟩⟩).2.1
        rfl rfl rfl ⟨"main"⟩ [] rfl).2.1 "python" rfl (by decide)
    simpa using h

/-- Claim C5, counterexample: with a non-empty pod IP but a configured
path whose URL fails to parse, request creation fails — no GET is issued
and no unhealthy verdict is returned; the layer aborts with a second
infrastructure error the claim does not mention. -/
theorem C5_counterexample :
    healthyPod.podIP ≠ "" ∧
    checkHTTPHealth healthyPod badPathURL
        (HTTPResult.requestError "net/url: invalid control character in URL") =
      Except.error
        "failed to create request: net/url: invalid control character in URL" ∧
    (checkHTTPHealthT healthyPod badPathURL
        (HTTPResult.requestError "net/url: invalid control character in URL")).2 =
      none :=
  ⟨by decide, rfl, rfl⟩

/-- Claim C5, amended: for the HTTP layer — an empty pod IP yields an
infrastructure error (and, when the HTTP layer is configured, makes
`IsPodHealthy` abort with the wrapped error); a request-creation failure
likewise aborts with an infrastructure error and no GET is issued; when the
request is created, the GET targets `http://<podIP>:8080<path>`, a
connection failure yields unhealthy with no error, and a response passes
exactly when its status code is in [200, 400). -/
theorem C5_amended (c : Checker) (pod : Pod) (opts : HealthCheckOptions)
    (w : World) :
    (pod.podIP = "" →
      checkHTTPHealth pod opts.httpCheckURL w.httpResult =
        Except.error "pod IP is not available") ∧
    (pod.podIP ≠ "" → ∀ e, w.httpResult = HTTPResult.requestError e →
      checkHTTPHealth pod opts.httpCheckURL w.httpResult =
        Except.error ("failed to create request: " ++ e) ∧
      (checkHTTPHealthT pod opts.httpCheckURL w.httpResult).2 = none) ∧
    (pod.podIP ≠ "" → (∀ e, w.httpResult ≠ HTTPResult.requestError e) →
      (checkHTTPHealthT pod opts.httpCheckURL w.httpResult).2 =
        some ("http://" ++ pod.podIP ++ ":8080" ++ opts.httpCheckURL)) ∧
    (pod.podIP ≠ "" → w.httpResult = HTTPResult.noResponse →
      checkHTTPHealth pod opts.httpCheckURL w.httpResult = Except.ok false) ∧
    (pod.podIP ≠ "" → ∀ code, w.httpResult = HTTPResult.response code →
      (checkHTTPHealth pod opts.httpCheckURL w.httpResult = Except.ok true ↔
        200 ≤ code ∧ code < 400)) ∧
    (pod.phase = PodPhase.Running → readyCondFail pod = false →
      opts.httpCheckURL ≠ "" → pod.podIP = "" →
      IsPodHealthy c pod opts w =
        Except.error "http health check failed: pod IP is not available") := by
  refine ⟨?_, ?_, ?_, ?_, ?_, ?_⟩
  · intro h
    simp [checkHTTPHealth, checkHTTPHealthT, h]
  · intro h e hr
    constructor
    · simp [checkHTTPHealth, checkHTTPHealthT, h, hr]
    · simp [checkHTTPHealthT, h, hr]
  · intro h hne
    cases hr : w.httpResult with
    | requestError e => exact absurd hr (hne e)
    | noResponse => simp [checkHTTPHealthT, h, hr]
    | response code => simp [checkHTTPHealthT, h, hr]
  · intro h hr
    simp [checkHTTPHealth, checkHTTPHealthT, h, hr]
  · intro h code hr
    simp [checkHTTPHealth, checkHTTPHealthT, h, hr]
  · intro hphase hready hurl hip
    have hchk : checkHTTPHealth pod opts.httpCheckURL w.httpResult =
        Except.error "pod IP is not available" := by
      simp [checkHTTPHealth, checkHTTPHealthT, hip]
    simp [IsPodHealthy, IsPodHealthyT, hphase, hready, httpStep, hurl, hchk]

/-- Claim C5 witness: a running, ready pod with no assigned IP and the HTTP
layer configured makes `IsPodHealthy` abort with the wrapped infrastructure
error. -/
theorem C5_witness :
    IsPodHealthy checkerOff noIPPod httpOnlyOpts quietWorld =
      Except.error "http health check failed: pod IP is not available" :=
  (C5_amended checkerOff noIPPod httpOnlyOpts quietWorld).2.2.2.2.2
    rfl rfl (by decide) rfl

/-- Claim C2, counterexample: a fetch error other than NotFound makes
`Reconcile` return the wrapped error to the caller with no requeue delay,
refuting the claim that every retryable error is signaled only by a
10-second requeue with no error. -/
theorem C2_counterexample :
    (Reconcile selectorReconciler (GetPodResult.otherError "connection refused")
        none quietWorld DeleteResult.ok).2 =
      some "failed to get pod: connection refused" ∧
    (Reconcile selectorReconciler (GetPodResult.otherError "connection refused")
        none quietWorld DeleteResult.ok).1.requeueAfterSeconds = 0 :=
  ⟨rfl, rfl⟩

/-- Claim C2, amended: a health-evaluation infrastructure error, or a
delete error other than NotFound, is not raised to the caller — `Reconcile`
returns no error and requests re-invocation after 10 seconds; a fetch error
other than NotFound is instead returned to the caller as an error (see the
counterexample). -/
theorem C2_amended (r : PodReconciler) (pod : Pod)
    (getSTS : Option StatefulSetObj) (w : World) (del : DeleteResult)
    (hm : matchesFilter r getSTS pod = true)
    (h : (∃ e, IsPodHealthy r.healthChecker pod r.healthCheckOptions w =
            Except.error e) ∨
         (IsPodHealthy r.healthChecker pod r.healthCheckOptions w =
            Except.ok false ∧ ∃ e, del = DeleteResult.otherError e)) :
    Reconcile r (GetPodResult.found pod) getSTS w del = (⟨10⟩, none) := by
  rcases h with ⟨e, he⟩ | ⟨hu, e, hd⟩
  · simp [Reconcile, hm, he]
  · simp [Reconcile, hm, hu, hd]

/-- Claim C2 witness: a missing pod IP with the HTTP layer configured is a
health-evaluation infrastructure error, and the reconcile returns a
10-second requeue with no error. -/
theorem C2_witness :
    Reconcile selectorReconciler (GetPodResult.found noIPPod) none quietWorld
      DeleteResult.ok = (⟨10⟩, none) :=
  C2_amended selectorReconciler noIPPod none quietWorld DeleteResult.ok rfl
    (Or.inl ⟨"http health check failed: pod IP is not available", rfl⟩)

/-- Claim C6: with both filtering criteria configured, `matchesFilter` is
the conjunction of StatefulSet membership and label-selector match
(intersection, not union); with only the label selector configured, a pod
matches exactly when every parsed equality term's key is present in the
pod's labels with the exact value. -/
theorem C6_filter_semantics (r : PodReconciler)
    (getSTS : Option StatefulSetObj) (pod : Pod) :
    (r.statefulSetName ≠ "" → r.podLabelSelector ≠ "" →
      matchesFilter r getSTS pod =
        (belongsToStatefulSet getSTS pod &&
          labelSelectorMatches r.podLabelSelector pod.labels)) ∧
    (r.statefulSetName = "" → r.podLabelSelector ≠ "" →
      ∀ terms, parseSelector r.podLabelSelector = some terms →
        (matchesFilter r getSTS pod = true ↔
          ∀ kv ∈ terms, pod.labels.lookup kv.1 = some kv.2)) := by
  constructor
  · intro h1 h2
    simp [matchesFilter, h1, h2]
  · intro h1 h2 terms ht
    simp [matchesFilter, h1, h2, labelSelectorMatches, ht, selectorMatches,
      List.all_eq_true]

/-- Claim C6 witness: a pod labelled `app=router` matches the selector text
`app=router` under the label-selector criterion alone. -/
theorem C6_witness : matchesFilter delReconciler none healthyPod = true :=
  ((C6_filter_semantics delReconciler none healthyPod).2 rfl (by decide)
      [("app", "router")] rfl).mpr (by decide)

/-- Claim C7: when the pod is in scope and unhealthy and the delete reports
NotFound, `Reconcile` finishes with Done — no error and no requeue delay. -/
theorem C7_delete_notfound_done (r : PodReconciler) (pod : Pod)
    (getSTS : Option StatefulSetObj) (w : World)
    (hm : matchesFilter r getSTS pod = true)
    (hu : IsPodHealthy r.healthChecker pod r.healthCheckOptions w =
      Except.ok false) :
    Reconcile r (GetPodResult.found pod) getSTS w DeleteResult.notFound =
      (⟨0⟩, none) := by
  simp [Reconcile, hm, hu]

/-- Claim C7 witness: a Pending (hence unhealthy) matching pod whose delete
reports NotFound yields Done. -/
theorem C7_witness :
    Reconcile delReconciler (GetPodResult.found pendingPod) none quietWorld
      DeleteResult.notFound = (⟨0⟩, none) :=
  C7_delete_notfound_done delReconciler pendingPod none quietWorld rfl rfl

/-- Claim C8: with a StatefulSet name configured, every lookup-failure path
(Get error, nil selector, selector-conversion error) makes
`belongsToStatefulSet` — and hence `matchesFilter` — return false: the pod
is excluded, never wrongly included. -/
theorem C8_lookup_fail_closed (r : PodReconciler)
    (getSTS : Option StatefulSetObj) (pod : Pod)
    (hname : r.statefulSetName ≠ "")
    (hfail : getSTS = none ∨
      ∃ sts, getSTS = some sts ∧
        (sts.selectorConv = none ∨
          ∃ e, sts.selectorConv = some (Except.error e))) :
    belongsToStatefulSet getSTS pod = false ∧
    matchesFilter r getSTS pod = false := by
  have hb : belongsToStatefulSet getSTS pod = false := by
    rcases hfail with h | ⟨sts, hsts, h | ⟨e, h⟩⟩
    · simp [belongsToStatefulSet, h]
    · simp [belongsToStatefulSet, hsts, h]
    · simp [belongsToStatefulSet, hsts, h]
  exact ⟨hb, by simp [matchesFilter, hname, hb]⟩

/-- Claim C8 witness: with the StatefulSet name configured and the Get
failing, a pod that would otherwise match is excluded. -/
theorem C8_witness :
    belongsToStatefulSet none healthyPod = false ∧
    matchesFilter stsReconciler none healthyPod = false :=
  C8_lookup_fail_closed stsReconciler none healthyPod (by decide) (Or.inl rfl)

/-- Claim C9: in every state the work-queue scheduler can reach from idle,
at most `maxConcurrentReconciles = 1` reconcile is in flight — reconciles
are processed strictly sequentially no matter how many notifications
arrive. -/
theorem C9_at_most_one_in_flight (s : SchedState) (h : SchedReachable s) :
    s.inFlight ≤ maxConcurrentReconciles := by
  induction h with
  | refl => exact Nat.zero_le _
  | tail hab hstep ih =>
    cases hstep with
    | notify p f => exact ih
    | start p f hf => exact hf
    | finish p f => exact Nat.le_of_succ_le ih

/-- Claim C9 witness: the state reached by one notification followed by one
worker start has one reconcile in flight, within the bound. -/
theorem C9_witness :
    (⟨0, 1⟩ : SchedState).inFlight ≤ maxConcurrentReconciles :=
  C9_at_most_one_in_flight ⟨0, 1⟩
    (Relation.ReflTransGen.tail
      (Relation.ReflTransGen.tail Relation.ReflTransGen.refl
        (SchedStep.notify 0 0))
      (SchedStep.start 0 0 (by decide)))

end Restarter
